import Mathlib

/-!
Shallow embedding of `src/utils/render.js` (the chat-card renderer):
the MultiRoll Processor (`renderMultiRoll`), the Damage Label Placement
Engine (`renderDamageRoll`), and the data these operate on.  JavaScript
numbers holding die faces and totals are modelled as `Int`; JS
`undefined`/`null` as `Option`; a thrown `TypeError` as
`Except.error ()` respectively `Option.none` in the step functions.
-/

namespace RSR

/-- A JavaScript primitive value as it appears in the placement settings:
either a number or a string.  The source compares placements with strict
equality against both the number `0` and the string `"0"`, so the
distinction between the two representations is load-bearing. -/
inductive JSVal
  | num (n : Int)
  | str (s : String)
deriving DecidableEq, Repr

/-- JS property-key conversion: a numeric key is its decimal string. -/
def JSVal.propKey : JSVal → String
  | .num n => toString n
  | .str s => s

/-- JS strict equality (`===`) on placement values: no type coercion. -/
def JSVal.strictEq : JSVal → JSVal → Bool
  | .num a, .num b => a == b
  | .str a, .str b => a == b
  | _, _ => false

/-- JS `Number(string)` restricted to the forms the settings domain uses:
a trimmed decimal numeral; the empty string coerces to `0`; a
non-numeric string coerces to NaN, modelled as `none`. -/
def jsToNum (s : String) : Option Int :=
  if s.trim.isEmpty then some 0 else s.trim.toInt?

/-- JS loose equality (`==`) on placement values: a number and a string
compare equal when the string coerces to that number. -/
def JSVal.looseEq : JSVal → JSVal → Bool
  | .num a, .num b => a == b
  | .str a, .str b => a == b
  | .num a, .str b => jsToNum b == some a
  | .str a, .num b => jsToNum a == some b

/-- One physical die result (`DieResult`): its face value and flags. -/
structure DieResult where
  result : Int
  active : Bool
  discarded : Bool
  rerolled : Bool
deriving DecidableEq, Repr

/-- The in-place mutation `r.active = !r.rerolled ?? true` of render.js
line 130: `!r.rerolled` is never nullish, so `?? true` is inert and the
active flag becomes the negation of `rerolled`. -/
def mutActive (r : DieResult) : DieResult :=
  { r with active := !r.rerolled }

/-- A die term (`Die`): number of dice, faces, and the rolled results. -/
structure Die where
  number : Nat
  faces : Nat
  results : List DieResult
deriving DecidableEq, Repr

/-- Sum of the face values of the active results in a list. -/
def activeFaceSum (l : List DieResult) : Int :=
  ((l.filter fun r => r.active).map fun r => r.result).sum

/-- An evaluated die term's total: the sum of its active results. -/
def Die.total (d : Die) : Int := activeFaceSum d.results

/-- A roll term: a die group or an evaluated flat numeric term.  Operator
terms of the host roll grammar are folded into the signs of flat terms. -/
inductive RollTerm
  | die (d : Die)
  | flat (n : Int)
deriving DecidableEq, Repr

def RollTerm.total : RollTerm → Int
  | .die d => d.total
  | .flat n => n

def RollTerm.asDie : RollTerm → Option Die
  | .die d => some d
  | .flat _ => none

/-- An evaluated composite roll (`Roll`): its formula string, ordered
terms, the module's critical flag, and the `halflingLucky` roll option. -/
structure Roll where
  formula : String
  terms : List RollTerm
  isCritical : Bool := false
  halflingLucky : Bool := false
deriving DecidableEq, Repr

/-- An evaluated roll's total: the sum of its term totals. -/
def Roll.total (r : Roll) : Int := (r.terms.map RollTerm.total).sum

/-- `roll.dice`: the die terms of the roll, in order. -/
def Roll.dice (r : Roll) : List Die := r.terms.filterMap RollTerm.asDie

def termFormula : RollTerm → String
  | .die d => toString d.number ++ "d" ++ toString d.faces
  | .flat n => toString n

/-- `Roll.fromTerms`: a roll rebuilt from already-evaluated terms; the
host derives the formula string from the terms. -/
def Roll.fromTerms (ts : List RollTerm) : Roll :=
  { formula := String.intercalate " + " (ts.map termFormula), terms := ts }

/-- Critical classification of a die or a roll. -/
inductive CritType
  | none
  | success
  | failure
deriving DecidableEq, Repr

/-- Modelled from the spec: `RollUtility.getCritTypeForDie` lives in
`roll.js`, which is not part of the sources; spec 4.1 classifies a die as
SUCCESS on a natural maximum, FAILURE on a natural minimum, NONE
otherwise, over the die's active results. -/
def getCritTypeForDie (d : Die) : CritType :=
  if d.results.any fun r => r.active && r.result == (d.faces : Int) then .success
  else if d.results.any fun r => r.active && r.result == 1 then .failure
  else .none

/-- Modelled from the spec: `RollUtility.getCritTypeForRoll` lives in
`roll.js`, which is not part of the sources; spec 4.1 combines the
roll's own critical flag with a natural-minimum check across its die
groups. -/
def getCritTypeForRoll (r : Roll) : CritType :=
  if r.isCritical then .success
  else if r.dice.any (fun d => d.results.any fun q => q.active && q.result == 1) then .failure
  else .none

/-- The result walk of `renderMultiRoll` (lines 119-131): group the
primary die results one entry at a time; with the lucky option a face-1
trigger also consumes the following result as its companion, and reading
past the end of the results throws (the `forEach` assigns `active` on
`undefined`).  Each consumed result is mutated by `mutActive`. -/
def walk (lucky : Bool) : List DieResult → Except Unit (List (List DieResult))
  | [] => .ok []
  | [r] =>
    if lucky && r.result == 1 then .error ()
    else .ok [[mutActive r]]
  | r :: c :: rest =>
    if lucky && r.result == 1 then
      (walk lucky rest).map fun gs => [mutActive r, mutActive c] :: gs
    else
      (walk lucky (c :: rest)).map fun gs => [mutActive r] :: gs

/-- One produced sub-roll entry (the object pushed at lines 136-143). -/
structure MultiRollEntry where
  roll : Roll
  total : Int
  ignored : Option Bool
  isCrit : Bool
  critType : CritType
  d20Result : Option Int
deriving DecidableEq, Repr

/-- Build one entry from its group of contributing results (lines
133-143).  `d20Result` reads `d20Rolls.results[i]` after the lucky
branch may have advanced `i`, i.e. the last consumed result. -/
def mkEntry (d20Icons : Bool) (bonus : Int) (isCrit : Bool)
    (g : List DieResult) : MultiRollEntry :=
  let baseTerm : Die := { number := 1, faces := 20, results := g }
  let baseRoll := Roll.fromTerms [.die baseTerm]
  { roll := baseRoll
  , total := baseRoll.total + bonus
  , ignored := if g.any fun r => r.discarded then some true else Option.none
  , isCrit := isCrit
  , critType := getCritTypeForDie baseTerm
  , d20Result := if d20Icons then g.getLast?.map (fun r => r.result) else Option.none }

/-- The output of the MultiRoll Processor.  `tooltips` and
`bonusTooltip` carry the rolls whose tooltips are rendered (tooltip
generation itself is the external template service); `finalResults`
is the post-state of the primary die group's results array, whose
elements the processor mutates in place. -/
structure MultiRollOut where
  entries : List MultiRollEntry
  formula : String
  tooltips : List Roll
  bonusTooltip : Option Roll
  finalResults : List DieResult
deriving DecidableEq, Repr

/-- `renderMultiRoll` (lines 110-158).  `roll.terms.slice(1)` is always
an array and an array is always truthy, so the `: null` alternative of
line 116 is dead and the synthetic bonus roll is always constructed.
A missing d20 group makes `d20Rolls` undefined and the `.results`
access throw. -/
def renderMultiRoll (d20Icons : Bool) (roll : Roll) : Except Unit MultiRollOut :=
  let bonusRoll : Option Roll := some (Roll.fromTerms (roll.terms.drop 1))
  match roll.dice.find? fun d => d.faces == 20 with
  | Option.none => .error ()
  | some d20 =>
    match walk roll.halflingLucky d20.results with
    | .error () => .error ()
    | .ok groups =>
      let bonusTotal : Int := (bonusRoll.map Roll.total).getD 0
      let entries := groups.map (mkEntry d20Icons bonusTotal roll.isCritical)
      .ok { entries := entries
          , formula := roll.formula
          , tooltips := entries.map fun e => e.roll
          , bonusTooltip := bonusRoll
          , finalResults := groups.flatten }

/-- The contributing die results of an entry: the results of the die
groups of its isolated roll. -/
def entryResults (e : MultiRollEntry) : List DieResult :=
  (e.roll.dice.map Die.results).flatten

/-- Vocabulary and localization inputs of the damage renderer: the
healing-type and damage-type lookup tables of the game config and the
localized strings it reads. -/
structure DmgConfig where
  healingTypes : String → Option String
  damageTypes : String → Option String
  locDamage : String
  locOther : String
  verLabel : String
  crittext : String

/-- The placement settings snapshot read at lines 178-182. -/
structure DmgSettings where
  titlePlacement : JSVal
  typePlacement : JSVal
  contextPlacement : JSVal
  replaceTitle : Bool
  replaceDamage : Bool
deriving DecidableEq, Repr

/-- JS truthiness of the context value: a present, non-empty string. -/
def ctxTruthy : Option String → Bool
  | Option.none => false
  | some s => !s.isEmpty

/-- JS truthiness of a vocabulary lookup: present and non-empty. -/
def lookupTruthy (o : Option String) : Bool :=
  o.elim false fun s => !s.isEmpty

/-- The `labels` object of lines 185-189: one fragment list per slot
key `1`, `2`, `3`. -/
structure Labels where
  l1 : List String
  l2 : List String
  l3 : List String
deriving DecidableEq, Repr

def Labels.empty : Labels := ⟨[], [], []⟩

/-- `labels[k].push(v)`: `none` models the TypeError thrown when
`labels[k]` is `undefined` (any key other than `"1"`, `"2"`, `"3"`). -/
def Labels.push (L : Labels) (k : String) (v : String) : Option Labels :=
  if k == "1" then some { L with l1 := L.l1 ++ [v] }
  else if k == "2" then some { L with l2 := L.l2 ++ [v] }
  else if k == "3" then some { L with l3 := L.l3 ++ [v] }
  else Option.none

/-- Read `labels[k]`; `none` models `undefined`. -/
def Labels.getList (L : Labels) (k : String) : Option (List String) :=
  if k == "1" then some L.l1
  else if k == "2" then some L.l2
  else if k == "3" then some L.l3
  else Option.none

/-- Overwrite index 0 of a JS array: on an empty array the assignment
creates the element. -/
def setHead (l : List String) (v : String) : List String :=
  match l with
  | [] => [v]
  | _ :: t => v :: t

/-- `labels[k][0] = v`; `none` models the TypeError on an undefined key. -/
def Labels.setZero (L : Labels) (k : String) (v : String) : Option Labels :=
  if k == "1" then some { L with l1 := setHead L.l1 v }
  else if k == "2" then some { L with l2 := setHead L.l2 v }
  else if k == "3" then some { L with l3 := setHead L.l3 v }
  else Option.none

/-- The `damagePrefix` computation of lines 191-201: healing label,
else localized damage label with optional versatile marker for a
recognized damage type, else the localized "other" label. -/
def damageTitleText (cfg : DmgConfig) (damageType : String) (versatile : Bool) : String :=
  if lookupTruthy (cfg.healingTypes damageType) then
    (cfg.healingTypes damageType).getD ""
  else if lookupTruthy (cfg.damageTypes damageType) then
    cfg.locDamage ++ (if versatile then " [" ++ cfg.verLabel ++ "]" else "")
  else if damageType == "other" then cfg.locOther
  else ""

/-- The title push guard of line 203: `titlePlacement !== 0` (strict,
against the number 0) and not the replace-title collision. -/
def titleGuard (st : DmgSettings) (context : Option String) : Bool :=
  !(JSVal.strictEq st.titlePlacement (.num 0)) &&
  !(st.replaceTitle && ctxTruthy context && JSVal.looseEq st.titlePlacement st.contextPlacement)

/-- Lines 203-206: push the title fragment and record `pushedTitle`. -/
def stepTitle (cfg : DmgConfig) (st : DmgSettings) (damageType : String)
    (context : Option String) (versatile : Bool) : Option (Labels × Bool) :=
  if titleGuard st context then
    (Labels.empty.push st.titlePlacement.propKey (damageTitleText cfg damageType versatile)).map
      fun L => (L, true)
  else some (Labels.empty, false)

/-- Lines 208-215: context handling.  On a strict placement collision
with a pushed title, the fragment at index 0 is replaced by
`(titleTmp ? titleTmp + " " : "") + "(" + context + ")"`; otherwise the
context is pushed unless `contextPlacement === "0"` (strict, against
the string `"0"`). -/
def stepContext (st : DmgSettings) (context : Option String)
    (p : Labels × Bool) : Option Labels :=
  if ctxTruthy context then
    let ctx := context.getD ""
    if JSVal.strictEq st.contextPlacement st.titlePlacement && p.2 then
      match p.1.getList st.contextPlacement.propKey with
      | Option.none => Option.none
      | some lst =>
        let titleTmp := lst.headD ""
        p.1.setZero st.contextPlacement.propKey
          ((if titleTmp.isEmpty then "" else titleTmp ++ " ") ++ "(" ++ ctx ++ ")")
    else if !(JSVal.strictEq st.contextPlacement (.str "0")) then
      p.1.push st.contextPlacement.propKey ctx
    else some p.1
  else some p.1

/-- Lines 217-220: push the damage-type string unless
`typePlacement === "0"` (strict, against the string `"0"`), the string
is empty, or the replace-damage collision applies. -/
def stepType (cfg : DmgConfig) (st : DmgSettings) (damageType : String)
    (context : Option String) (L : Labels) : Option Labels :=
  let damageString := (cfg.damageTypes damageType).getD ""
  if !(JSVal.strictEq st.typePlacement (.str "0")) && !damageString.isEmpty &&
     !(st.replaceDamage && ctxTruthy context && JSVal.looseEq st.typePlacement st.contextPlacement) then
    L.push st.typePlacement.propKey damageString
  else some L

/-- Lines 222-224: join each slot's fragments with " - ". -/
def joinFrags (l : List String) : String := String.intercalate " - " l

/-- Per-roll summary in the damage output (lines 236-237). -/
structure RollSummary where
  roll : Roll
  total : Int
  critType : CritType
deriving DecidableEq, Repr

/-- The data object handed to the damage template (lines 232-244). -/
structure DamageRender where
  damageType : String
  tooltips : List Roll
  base : Option RollSummary
  crit : Option RollSummary
  crittext : String
  damagetop : String
  damagemid : String
  damagebottom : String
  formula : String
deriving DecidableEq, Repr

/-- The early-return condition of line 175: both rolls are present and
have zero terms (optional chaining makes an absent roll compare
`undefined === 0`, which is false). -/
def noContent (baseRoll critRoll : Option Roll) : Bool :=
  (baseRoll.elim false fun b => b.terms.isEmpty) &&
  (critRoll.elim false fun c => c.terms.isEmpty)

/-- `baseRoll?.formula ?? critRoll.formula` (line 242): `none` models
the TypeError when both rolls are absent. -/
def formulaFallback (baseRoll critRoll : Option Roll) : Option String :=
  match baseRoll with
  | some b => some b.formula
  | Option.none => critRoll.map fun c => c.formula

/-- `renderDamageRoll` (lines 171-245).  `ok none` is the silent early
return of line 175; `error ()` is a thrown TypeError, either from a
fragment push to a nonexistent slot key or from the formula fallback
dereferencing an absent crit roll. -/
def renderDamageRoll (cfg : DmgConfig) (st : DmgSettings) (damageType : String)
    (baseRoll critRoll : Option Roll) (context : Option String)
    (versatile : Bool) : Except Unit (Option DamageRender) :=
  if noContent baseRoll critRoll then
    .ok Option.none
  else
    match stepTitle cfg st damageType context versatile with
    | Option.none => .error ()
    | some p =>
      match stepContext st context p with
      | Option.none => .error ()
      | some L2 =>
        match stepType cfg st damageType context L2 with
        | Option.none => .error ()
        | some L3 =>
          match formulaFallback baseRoll critRoll with
          | Option.none => .error ()
          | some formula =>
            .ok (some
              { damageType := damageType
              , tooltips := [baseRoll, critRoll].filterMap id
              , base := baseRoll.map fun b =>
                  { roll := b, total := b.total, critType := getCritTypeForRoll b }
              , crit := critRoll.map fun c =>
                  { roll := c, total := c.total, critType := getCritTypeForRoll c }
              , crittext := cfg.crittext
              , damagetop := joinFrags L3.l1
              , damagemid := joinFrags L3.l2
              , damagebottom := joinFrags L3.l3
              , formula := formula })

/-- The labels state after the title and context steps, before the
damage-type step; used to state the merge rule. -/
def labelsAfterContext (cfg : DmgConfig) (st : DmgSettings) (damageType : String)
    (context : Option String) (versatile : Bool) : Option Labels :=
  (stepTitle cfg st damageType context versatile).bind (stepContext st context)

/-- A placement value that designates one of the three real slots. -/
def validSlot (v : JSVal) : Prop :=
  v.propKey = "1" ∨ v.propKey = "2" ∨ v.propKey = "3"

instance (v : JSVal) : Decidable (validSlot v) := by
  unfold validSlot
  infer_instance

/-- Extract the top slot string of a successful damage render. -/
def damagetopOf : Except Unit (Option DamageRender) → Option String
  | .ok (some o) => some o.damagetop
  | _ => Option.none

/-- Extract the formula of a successful damage render. -/
def formulaOf : Except Unit (Option DamageRender) → Option String
  | .ok (some o) => some o.formula
  | _ => Option.none

/-- Extract the recorded face values of a successful multi-roll render. -/
def d20ResultsOf : Except Unit MultiRollOut → Option (List (Option Int))
  | .ok o => some (o.entries.map fun e => e.d20Result)
  | .error _ => Option.none

/-- Extract the mutated primary results of a successful multi-roll render. -/
def finalResultsOf : Except Unit MultiRollOut → Option (List DieResult)
  | .ok o => some o.finalResults
  | .error _ => Option.none

/-- Extract the bonus tooltip field of a successful multi-roll render. -/
def bonusTooltipOf : Except Unit MultiRollOut → Option (Option Roll)
  | .ok o => some o.bonusTooltip
  | .error _ => Option.none

/-- Extract the entry totals of a successful multi-roll render. -/
def totalsOf : Except Unit MultiRollOut → Option (List Int)
  | .ok o => some (o.entries.map fun e => e.total)
  | .error _ => Option.none

def dummyResult : DieResult := ⟨0, false, false, false⟩

/-- A small vocabulary for the concrete scenarios: `fire` is the one
recognized damage type and `healing` the one healing type. -/
def cfgStd : DmgConfig :=
  { healingTypes := fun s => if s == "healing" then some "Healing" else Option.none
  , damageTypes := fun s => if s == "fire" then some "Fire" else Option.none
  , locDamage := "Damage"
  , locOther := "Other"
  , verLabel := "Versatile"
  , crittext := "Critical Hit!" }

/-- Settings with numeric type placement 0 (the C2 failing input). -/
def stTypeZero : DmgSettings := ⟨.num 1, .num 0, .num 2, false, false⟩

/-- Settings with title and context colliding on slot 1, type on slot 2. -/
def stCollide : DmgSettings := ⟨.num 1, .num 2, .num 1, false, false⟩

/-- Settings with the three placements on the three distinct slots. -/
def stDistinct : DmgSettings := ⟨.num 1, .num 2, .num 3, false, false⟩

/-- A present base damage roll: `2d6 + 3`. -/
def baseRollStd : Roll :=
  { formula := "2d6 + 3"
  , terms := [.die ⟨2, 6, [⟨3, true, false, false⟩, ⟨4, true, false, false⟩]⟩, .flat 3] }

/-- A check roll `1d20 + 3` with a single active d20 result of 15. -/
def roll1 : Roll :=
  { formula := "1d20 + 3"
  , terms := [.die ⟨1, 20, [⟨15, true, false, false⟩]⟩, .flat 3] }

/-- A check roll whose single d20 result arrives inactive and
discarded. -/
def roll5 : Roll :=
  { formula := "1d20", terms := [.die ⟨1, 20, [⟨10, false, true, false⟩]⟩] }

/-- A lucky-reroll roll: the trigger rolled 1 and is marked rerolled,
the companion rolled 15. -/
def roll6 : Roll :=
  { formula := "2d20"
  , terms := [.die ⟨2, 20, [⟨1, true, false, true⟩, ⟨15, true, false, false⟩]⟩]
  , halflingLucky := true }

/-- A check roll whose terms are only the primary d20 group. -/
def roll7 : Roll :=
  { formula := "1d20", terms := [.die ⟨1, 20, [⟨12, true, false, false⟩]⟩] }

/-- A lucky-reroll roll whose last result has face value 1 but is
consumed as the companion of the preceding natural 1. -/
def roll9 : Roll :=
  { formula := "2d20"
  , terms := [.die ⟨2, 20, [⟨1, true, false, true⟩, ⟨1, true, false, false⟩]⟩]
  , halflingLucky := true }

/-- Primary results for the C10 witness: a reroll pair then a plain 5. -/
def rs10 : List DieResult :=
  [⟨1, true, false, true⟩, ⟨1, true, false, false⟩, ⟨5, true, false, false⟩]

/-- A lucky roll over `rs10`: a natural 1, its face-1 companion, then a 5. -/
def roll10 : Roll :=
  { formula := "3d20", terms := [.die ⟨3, 20, rs10⟩], halflingLucky := true }

/-- A lucky roll whose only primary result is a natural 1: the companion
consumption reads past the end of the results. -/
def roll9w : Roll :=
  { formula := "1d20"
  , terms := [.die ⟨1, 20, [⟨1, true, false, false⟩]⟩]
  , halflingLucky := true }

def outOf : Except Unit MultiRollOut → Option MultiRollOut
  | .ok o => some o
  | .error _ => Option.none

def dummyOut : MultiRollOut := ⟨[], "", [], Option.none, []⟩

def dummyEntry : MultiRollEntry :=
  { roll := Roll.fromTerms []
  , total := 0
  , ignored := Option.none
  , isCrit := false
  , critType := CritType.none
  , d20Result := Option.none }

def dummyDie : Die := ⟨0, 0, []⟩

/-- The concrete output of rendering `roll1`, and its single entry. -/
def out1val : MultiRollOut := (outOf (renderMultiRoll false roll1)).getD dummyOut

def e1val : MultiRollEntry := out1val.entries.headD dummyEntry

/-- The concrete output of rendering `roll5`. -/
def out5val : MultiRollOut := (outOf (renderMultiRoll false roll5)).getD dummyOut

/-- The primary die group of `roll5`. -/
def d20of5 : Die := ⟨1, 20, [⟨10, false, true, false⟩]⟩

/-- The concrete output of rendering `roll6` with icons on, and its entry. -/
def out6val : MultiRollOut := (outOf (renderMultiRoll true roll6)).getD dummyOut

def e6val : MultiRollEntry := out6val.entries.headD dummyEntry

/-- The concrete output of rendering `roll10`, and its first entry. -/
def out10val : MultiRollOut := (outOf (renderMultiRoll false roll10)).getD dummyOut

def e10val : MultiRollEntry := out10val.entries.headD dummyEntry

instance {e a : Type} [DecidableEq e] [DecidableEq a] : DecidableEq (Except e a) := fun x y =>
  match x, y with
  | .ok v, .ok w =>
    if h : v = w then .isTrue (by rw [h]) else .isFalse (by intro hh; injection hh; simp_all)
  | .error v, .error w =>
    if h : v = w then .isTrue (by rw [h]) else .isFalse (by intro hh; injection hh; simp_all)
  | .ok _, .error _ => .isFalse (by intro hh; injection hh)
  | .error _, .ok _ => .isFalse (by intro hh; injection hh)

theorem except_map_ok {a b c : Type} {f : b → c} {x : Except a b} {y : c}
    (h : x.map f = .ok y) : ∃ v, x = .ok v ∧ f v = y := by
  cases x with
  | error e => simp [Except.map] at h
  | ok v =>
    refine ⟨v, rfl, ?_⟩
    simpa [Except.map] using h

/-- A successful walk consumes every result exactly once, in order, and
each consumed result is the in-place mutated one. -/
theorem walk_flatten (lucky : Bool) :
    ∀ (rs : List DieResult) (gs : List (List DieResult)),
      walk lucky rs = .ok gs → gs.flatten = rs.map mutActive
  | [], gs, h => by
    simp only [walk] at h
    injection h with h2
    subst h2
    rfl
  | [r], gs, h => by
    simp only [walk] at h
    by_cases hc : (lucky && r.result == 1) = true
    · rw [if_pos hc] at h
      exact absurd h (by simp)
    · rw [if_neg hc] at h
      injection h with h2
      subst h2
      simp
  | r :: c :: rest, gs, h => by
    simp only [walk] at h
    by_cases hc : (lucky && r.result == 1) = true
    · rw [if_pos hc] at h
      obtain ⟨gs0, hw, hmap⟩ := except_map_ok h
      subst hmap
      simp [walk_flatten lucky rest gs0 hw]
    · rw [if_neg hc] at h
      obtain ⟨gs0, hw, hmap⟩ := except_map_ok h
      subst hmap
      simp [walk_flatten lucky (c :: rest) gs0 hw]

/-- Every group a successful walk produces has one or two results, and
two results occur only under the lucky option with a face-1 trigger. -/
theorem walk_group_sizes (lucky : Bool) :
    ∀ (rs : List DieResult) (gs : List (List DieResult)),
      walk lucky rs = .ok gs → ∀ g ∈ gs,
        (g.length = 1 ∨ g.length = 2) ∧
        (g.length = 2 → lucky = true ∧ (g.headD dummyResult).result = 1)
  | [], gs, h => by
    simp only [walk] at h
    injection h with h2
    subst h2
    intro g hg
    simp at hg
  | [r], gs, h => by
    simp only [walk] at h
    by_cases hc : (lucky && r.result == 1) = true
    · rw [if_pos hc] at h
      exact absurd h (by simp)
    · rw [if_neg hc] at h
      injection h with h2
      subst h2
      intro g hg
      simp at hg
      subst hg
      simp
  | r :: c :: rest, gs, h => by
    simp only [walk] at h
    by_cases hc : (lucky && r.result == 1) = true
    · rw [if_pos hc] at h
      obtain ⟨gs0, hw, hmap⟩ := except_map_ok h
      subst hmap
      intro g hg
      rcases List.mem_cons.mp hg with hg1 | hg2
      · subst hg1
        refine ⟨Or.inr rfl, fun _ => ?_⟩
        have hand : lucky = true ∧ r.result = 1 := by simpa using hc
        exact ⟨hand.1, by simpa [mutActive] using hand.2⟩
      · exact walk_group_sizes lucky rest gs0 hw g hg2
    · rw [if_neg hc] at h
      obtain ⟨gs0, hw, hmap⟩ := except_map_ok h
      subst hmap
      intro g hg
      rcases List.mem_cons.mp hg with hg1 | hg2
      · subst hg1
        exact ⟨Or.inl rfl, by simp⟩
      · exact walk_group_sizes lucky (c :: rest) gs0 hw g hg2

/-- Appending one result to a fully grouped prefix: the lucky walk fails
exactly when the appended result rolled a 1 (it then starts an entry and
the companion read runs past the end); otherwise it becomes its own
one-result group. -/
theorem walk_snoc (r0 : DieResult) :
    ∀ (rs : List DieResult) (gs : List (List DieResult)),
      walk true rs = .ok gs →
      walk true (rs ++ [r0]) =
        if r0.result == 1 then .error () else .ok (gs ++ [[mutActive r0]])
  | [], gs, h => by
    simp only [walk] at h
    injection h with h2
    subst h2
    simp [walk]
  | [r], gs, h => by
    simp only [walk, Bool.true_and] at h
    by_cases hc : (r.result == 1) = true
    · rw [if_pos hc] at h
      exact absurd h (by simp)
    · rw [if_neg hc] at h
      injection h with h2
      subst h2
      simp only [List.cons_append, List.nil_append, walk, Bool.true_and, if_neg hc]
      by_cases h0 : (r0.result == 1) = true
      · simp [h0, Except.map]
      · simp [h0, Except.map]
  | r :: c :: rest, gs, h => by
    simp only [walk, Bool.true_and] at h
    by_cases hc : (r.result == 1) = true
    · rw [if_pos hc] at h
      obtain ⟨gs0, hw, hmap⟩ := except_map_ok h
      subst hmap
      have ih := walk_snoc r0 rest gs0 hw
      simp only [List.cons_append]
      simp only [walk, Bool.true_and, if_pos hc]
      rw [ih]
      by_cases h0 : (r0.result == 1) = true
      · simp [h0, Except.map]
      · simp [h0, Except.map]
    · rw [if_neg hc] at h
      obtain ⟨gs0, hw, hmap⟩ := except_map_ok h
      subst hmap
      have ih := walk_snoc r0 (c :: rest) gs0 hw
      simp only [List.cons_append]
      simp only [walk, Bool.true_and, if_neg hc]
      rw [List.cons_append] at ih
      rw [ih]
      by_cases h0 : (r0.result == 1) = true
      · simp [h0, Except.map]
      · simp [h0, Except.map]

theorem mkEntry_total (icons : Bool) (bonus : Int) (crit : Bool) (g : List DieResult) :
    (mkEntry icons bonus crit g).total = activeFaceSum g + bonus := by
  simp [mkEntry, Roll.fromTerms, Roll.total, RollTerm.total, Die.total]

theorem entryResults_mkEntry (icons : Bool) (bonus : Int) (crit : Bool) (g : List DieResult) :
    entryResults (mkEntry icons bonus crit g) = g := by
  simp [entryResults, mkEntry, Roll.fromTerms, Roll.dice, RollTerm.asDie]

theorem mkEntry_d20Result (icons : Bool) (bonus : Int) (crit : Bool) (g : List DieResult) :
    (mkEntry icons bonus crit g).d20Result =
      if icons then g.getLast?.map (fun r => r.result) else Option.none := rfl

/-- Destructor for a successful multi-roll render: it exposes the found
primary d20 group, the walk's groups, and how each output field is
assembled from them. -/
theorem renderMultiRoll_ok {icons : Bool} {roll : Roll} {out : MultiRollOut}
    (h : renderMultiRoll icons roll = .ok out) :
    ∃ d20 groups,
      roll.dice.find? (fun d => d.faces == 20) = some d20 ∧
      walk roll.halflingLucky d20.results = .ok groups ∧
      out.entries = groups.map
        (mkEntry icons (Roll.fromTerms (roll.terms.drop 1)).total roll.isCritical) ∧
      out.bonusTooltip = some (Roll.fromTerms (roll.terms.drop 1)) ∧
      out.finalResults = groups.flatten ∧
      out.formula = roll.formula := by
  cases hf : roll.dice.find? (fun d => d.faces == 20) with
  | none =>
    simp only [renderMultiRoll, hf] at h
    exact Except.noConfusion h
  | some d20 =>
    cases hw : walk roll.halflingLucky d20.results with
    | error e =>
      cases e
      simp only [renderMultiRoll, hf, hw] at h
      exact Except.noConfusion h
    | ok groups =>
      simp only [renderMultiRoll, hf, hw] at h
      injection h with h2
      subst h2
      exact ⟨d20, groups, rfl, hw, by simp, by simp, rfl, rfl⟩

theorem strictEq_refl (v : JSVal) : JSVal.strictEq v v = true := by
  cases v <;> simp [JSVal.strictEq]

theorem push_valid {k : String} (h : k = "1" ∨ k = "2" ∨ k = "3") (L : Labels) (v : String) :
    (L.push k v).isSome = true := by
  rcases h with h | h | h <;> simp [Labels.push, h]

theorem getList_valid {k : String} (h : k = "1" ∨ k = "2" ∨ k = "3") (L : Labels) :
    (L.getList k).isSome = true := by
  rcases h with h | h | h <;> simp [Labels.getList, h]

theorem setZero_valid {k : String} (h : k = "1" ∨ k = "2" ∨ k = "3") (L : Labels) (v : String) :
    (L.setZero k v).isSome = true := by
  rcases h with h | h | h <;> simp [Labels.setZero, h]

theorem stepTitle_isSome (cfg : DmgConfig) (st : DmgSettings) (dt : String)
    (ctx : Option String) (v : Bool) (h : validSlot st.titlePlacement) :
    (stepTitle cfg st dt ctx v).isSome = true := by
  unfold stepTitle
  by_cases hg : titleGuard st ctx = true
  · rw [if_pos hg]
    have := push_valid h Labels.empty (damageTitleText cfg dt v)
    cases hp : Labels.empty.push st.titlePlacement.propKey (damageTitleText cfg dt v) with
    | none => rw [hp] at this; simp at this
    | some L => simp [hp]
  · rw [if_neg hg]
    simp

theorem stepContext_isSome (st : DmgSettings) (ctx : Option String) (p : Labels × Bool)
    (h : validSlot st.contextPlacement) : (stepContext st ctx p).isSome = true := by
  unfold stepContext
  by_cases h1 : ctxTruthy ctx = true
  · rw [if_pos h1]
    by_cases h2 : (JSVal.strictEq st.contextPlacement st.titlePlacement && p.2) = true
    · rw [if_pos h2]
      have hgl := getList_valid h p.1
      cases hg : p.1.getList st.contextPlacement.propKey with
      | none => rw [hg] at hgl; simp at hgl
      | some lst =>
        simpa using setZero_valid h p.1 _
    · rw [if_neg h2]
      by_cases h3 : (!JSVal.strictEq st.contextPlacement (.str "0")) = true
      · rw [if_pos h3]
        exact push_valid h p.1 _
      · rw [if_neg h3]
        simp
  · rw [if_neg h1]
    simp

theorem stepType_isSome (cfg : DmgConfig) (st : DmgSettings) (dt : String)
    (ctx : Option String) (L : Labels) (h : validSlot st.typePlacement) :
    (stepType cfg st dt ctx L).isSome = true := by
  unfold stepType
  by_cases h1 : (!JSVal.strictEq st.typePlacement (.str "0") &&
      !((cfg.damageTypes dt).getD "").isEmpty &&
      !(st.replaceDamage && ctxTruthy ctx && JSVal.looseEq st.typePlacement st.contextPlacement)) = true
  · rw [if_pos h1]
    exact push_valid h L _
  · rw [if_neg h1]
    simp

/-- With all three placements on valid slots and content to display, the
render's formula field equals the base-to-crit fallback, and the render
throws exactly when the fallback dereferences an absent crit roll. -/
theorem renderDamage_formula_eq (cfg : DmgConfig) (st : DmgSettings) (dt : String)
    (base crit : Option Roll) (ctx : Option String) (v : Bool)
    (h1 : validSlot st.titlePlacement) (h2 : validSlot st.typePlacement)
    (h3 : validSlot st.contextPlacement) (hnc : noContent base crit = false) :
    formulaOf (renderDamageRoll cfg st dt base crit ctx v) = formulaFallback base crit ∧
    (renderDamageRoll cfg st dt base crit ctx v = .error () ↔
      formulaFallback base crit = Option.none) := by
  obtain ⟨p, hp⟩ := Option.isSome_iff_exists.mp (stepTitle_isSome cfg st dt ctx v h1)
  obtain ⟨L2, hL2⟩ := Option.isSome_iff_exists.mp (stepContext_isSome st ctx p h3)
  obtain ⟨L3, hL3⟩ := Option.isSome_iff_exists.mp (stepType_isSome cfg st dt ctx L2 h2)
  cases hfb : formulaFallback base crit with
  | none =>
    simp [renderDamageRoll, hnc, hp, hL2, hL3, hfb, formulaOf]
  | some f =>
    simp [renderDamageRoll, hnc, hp, hL2, hL3, hfb, formulaOf]

/-- C1: every entry produced by the MultiRoll Processor has total equal
to the sum of the face values of its active contributing die results
plus the shared bonus-roll total (the same bonus expression for every
entry of the call, and 0 when there are no bonus terms); results with
active = false never contribute. -/
theorem C1_entry_total_invariant (icons : Bool) (roll : Roll) (out : MultiRollOut)
    (e : MultiRollEntry) (h : renderMultiRoll icons roll = .ok out)
    (he : e ∈ out.entries) :
    e.total = activeFaceSum (entryResults e) + (Roll.fromTerms (roll.terms.drop 1)).total ∧
    (roll.terms.drop 1 = [] → (Roll.fromTerms (roll.terms.drop 1)).total = 0) := by
  obtain ⟨d20, groups, hf, hw, hent, hbt, hfr, hform⟩ := renderMultiRoll_ok h
  rw [hent] at he
  obtain ⟨g, hg, rfl⟩ := List.mem_map.mp he
  constructor
  · rw [mkEntry_total, entryResults_mkEntry]
  · intro hnil
    rw [hnil]
    rfl

/-- C1 witness: the single entry of `roll1` (a 15 on the d20 plus a flat
3) has total 18, the active face sum plus the bonus total. -/
theorem C1_entry_total_invariant_witness :
    renderMultiRoll false roll1 = .ok out1val ∧ e1val ∈ out1val.entries ∧
    e1val.total = activeFaceSum (entryResults e1val) +
      (Roll.fromTerms (roll1.terms.drop 1)).total :=
  ⟨by decide, by decide,
    (C1_entry_total_invariant false roll1 out1val e1val (by decide) (by decide)).1⟩

/-- C2: evaluating the Placement Engine at the failing input: the
numeric placement value 0 for the damage-type slot together with the
recognized damage type "fire" makes the engine throw (a push on the
nonexistent slot `labels[0]`, since `0 !== "0"`) instead of omitting the
fragment and returning three slot strings. -/
theorem C2_type_placement_zero_throws :
    renderDamageRoll cfgStd stTypeZero "fire" (some baseRollStd)
      Option.none Option.none false = .error () := by decide

/-- C3 counterexample: at the claimed scenario (type "fire", context
"Sneak Attack", titlePlacement = contextPlacement = 1, replaceTitle =
false) slot 1 is not the claimed "Damage - Sneak Attack". -/
theorem C3_counterexample :
    damagetopOf (renderDamageRoll cfgStd stCollide "fire" (some baseRollStd)
      Option.none (some "Sneak Attack") false) ≠ some "Damage - Sneak Attack" := by decide

/-- C3 (amended): at that scenario slot 1 is the single merged fragment
"Damage (Sneak Attack)": the merge path triggers whenever
contextPlacement strictly equals titlePlacement and the title was
pushed; replaceTitle = false only means the title is pushed first, not
that the two fragments stay separate. -/
theorem C3_slot1_is_merged :
    damagetopOf (renderDamageRoll cfgStd stCollide "fire" (some baseRollStd)
      Option.none (some "Sneak Attack") false) = some "Damage (Sneak Attack)" := by decide

/-- C4 counterexample: with an unrecognized damage type the placed title
fragment is the empty string, and the merged fragment is "(Foo)" rather
than the claimed literal form "<title> (<context>)", which would be
" (Foo)" here. -/
theorem C4_counterexample :
    damagetopOf (renderDamageRoll cfgStd stCollide "bogus" (some baseRollStd)
      Option.none (some "Foo") false) = some "(Foo)" ∧
    damageTitleText cfgStd "bogus" false = "" ∧
    some "(Foo)" ≠ some (damageTitleText cfgStd "bogus" false ++ " (" ++ "Foo" ++ ")") := by
  decide

/-- C4 (amended): whenever contextPlacement strictly equals
titlePlacement, the slot is one of the three real slots, context is
present and the title guard pushed the title, the colliding slot holds
exactly one fragment after context handling: the just-pushed title
fragment is replaced by "<title> (<context>)" when the title text is
non-empty and by "(<context>)" when it is empty — the context is never
appended as a second fragment. -/
theorem C4_merge_replaces_title (cfg : DmgConfig) (st : DmgSettings) (dt : String)
    (ctx : Option String) (v : Bool)
    (hcol : st.contextPlacement = st.titlePlacement)
    (hval : validSlot st.titlePlacement)
    (hctx : ctxTruthy ctx = true)
    (hguard : titleGuard st ctx = true) :
    labelsAfterContext cfg st dt ctx v =
      Labels.empty.push st.titlePlacement.propKey
        ((if (damageTitleText cfg dt v).isEmpty then ""
          else damageTitleText cfg dt v ++ " ") ++ "(" ++ ctx.getD "" ++ ")") := by
  unfold labelsAfterContext stepTitle
  rw [if_pos hguard]
  rcases hval with h | h | h <;>
    simp [h, Labels.push, Labels.empty, stepContext, hctx, hcol, strictEq_refl,
      Labels.getList, Labels.setZero, setHead]

/-- C4 witness: the merge rule applied at the concrete colliding
scenario with the "fire" damage title. -/
theorem C4_merge_replaces_title_witness :
    (stCollide.contextPlacement = stCollide.titlePlacement ∧
     validSlot stCollide.titlePlacement ∧
     ctxTruthy (some "Sneak Attack") = true ∧
     titleGuard stCollide (some "Sneak Attack") = true) ∧
    labelsAfterContext cfgStd stCollide "fire" (some "Sneak Attack") false =
      Labels.empty.push stCollide.titlePlacement.propKey
        ((if (damageTitleText cfgStd "fire" false).isEmpty then ""
          else damageTitleText cfgStd "fire" false ++ " ") ++ "(" ++
          (some "Sneak Attack").getD "" ++ ")") :=
  ⟨⟨rfl, by decide, by decide, by decide⟩,
    C4_merge_replaces_title cfgStd stCollide "fire" (some "Sneak Attack") false
      rfl (by decide) (by decide) (by decide)⟩

/-- C5 counterexample: `roll5`'s single primary result arrives with
active = false, but after processing its active flag has been
overwritten to true, so the caller's input is not left identical. -/
theorem C5_counterexample :
    roll5.dice = [⟨1, 20, [⟨10, false, true, false⟩]⟩] ∧
    finalResultsOf (renderMultiRoll false roll5) = some [⟨10, true, true, false⟩] := by
  decide

/-- C5 (amended): the processor mutates exactly the active flags of the
primary die group's results, setting each to the negation of its
rerolled flag; the face values and the discarded and rerolled flags are
unchanged, in order. -/
theorem C5_mutates_only_active_flags (icons : Bool) (roll : Roll) (out : MultiRollOut)
    (d20 : Die) (h : renderMultiRoll icons roll = .ok out)
    (hf : roll.dice.find? (fun d => d.faces == 20) = some d20) :
    out.finalResults = d20.results.map mutActive ∧
    out.finalResults.map (fun r => r.result) = d20.results.map (fun r => r.result) ∧
    out.finalResults.map (fun r => r.discarded) = d20.results.map (fun r => r.discarded) ∧
    out.finalResults.map (fun r => r.rerolled) = d20.results.map (fun r => r.rerolled) ∧
    out.finalResults.map (fun r => r.active) = d20.results.map (fun r => !r.rerolled) := by
  obtain ⟨d20x, groups, hfx, hw, hent, hbt, hfr, hform⟩ := renderMultiRoll_ok h
  rw [hf] at hfx
  injection hfx with hd
  subst hd
  have hflat := walk_flatten roll.halflingLucky d20.results groups hw
  rw [hfr, hflat]
  refine ⟨rfl, ?_, ?_, ?_, ?_⟩ <;>
    simp [List.map_map, Function.comp, mutActive]

/-- C5 witness: the mutation law evaluated on `roll5`. -/
theorem C5_mutates_only_active_flags_witness :
    renderMultiRoll false roll5 = .ok out5val ∧
    roll5.dice.find? (fun d => d.faces == 20) = some d20of5 ∧
    out5val.finalResults = d20of5.results.map mutActive :=
  ⟨by decide, by decide,
    (C5_mutates_only_active_flags false roll5 out5val d20of5 (by decide) (by decide)).1⟩

/-- C6 counterexample: for the lucky pair (trigger face 1, companion
face 15) with icons enabled, the recorded face value is the companion's
15, not the triggering result's 1. -/
theorem C6_counterexample :
    roll6.halflingLucky = true ∧
    roll6.dice = [⟨2, 20, [⟨1, true, false, true⟩, ⟨15, true, false, false⟩]⟩] ∧
    d20ResultsOf (renderMultiRoll true roll6) = some [some 15] := by decide

/-- C6 (amended): with the face-value icon setting enabled, each entry
records the face value of its last contributing result — the reroll
companion when the lucky rule consumed two dice, otherwise the
triggering result; with the setting disabled no face value is
recorded. -/
theorem C6_d20Result_is_last_consumed (icons : Bool) (roll : Roll) (out : MultiRollOut)
    (e : MultiRollEntry) (h : renderMultiRoll icons roll = .ok out)
    (he : e ∈ out.entries) :
    e.d20Result =
      if icons then (entryResults e).getLast?.map (fun r => r.result)
      else Option.none := by
  obtain ⟨d20, groups, hf, hw, hent, hbt, hfr, hform⟩ := renderMultiRoll_ok h
  rw [hent] at he
  obtain ⟨g, hg, rfl⟩ := List.mem_map.mp he
  rw [mkEntry_d20Result, entryResults_mkEntry]

/-- C6 witness: the recorded-face law evaluated on `roll6`. -/
theorem C6_d20Result_is_last_consumed_witness :
    renderMultiRoll true roll6 = .ok out6val ∧ e6val ∈ out6val.entries ∧
    e6val.d20Result =
      (if true then (entryResults e6val).getLast?.map (fun r => r.result)
       else Option.none) :=
  ⟨by decide, by decide,
    C6_d20Result_is_last_consumed true roll6 out6val e6val (by decide) (by decide)⟩

/-- C7: evaluation at the failing input: for `roll7`, whose terms are
only the primary d20 group, the bonus contribution to the entry total
is 0 as claimed, but the bonus tooltip is still present (the tooltip of
an empty synthetic roll), because `roll.terms.slice(1)` is always a
truthy array and the null branch of line 116 is dead. -/
theorem C7_bonus_tooltip_present_without_bonus_terms :
    roll7.terms.drop 1 = [] ∧
    totalsOf (renderMultiRoll false roll7) = some [12] ∧
    bonusTooltipOf (renderMultiRoll false roll7) = some (some (Roll.fromTerms [])) := by
  decide

/-- C8 counterexample: with both the base and the critical roll entirely
absent, the damage handler throws (the formula fallback dereferences the
absent crit roll) instead of returning a complete output object. -/
theorem C8_counterexample :
    renderDamageRoll cfgStd stDistinct "fire" Option.none Option.none
      Option.none false = .error () := by decide

/-- C8 (amended): with the three placements on valid slots, the damage
handler returns no output exactly when both rolls are present with zero
terms; it throws when both rolls are entirely absent; in every other
case it returns a complete output object whose formula falls back from
the base roll's formula to the critical roll's formula. -/
theorem C8_output_presence (cfg : DmgConfig) (st : DmgSettings) (dt : String)
    (base crit : Option Roll) (ctx : Option String) (v : Bool)
    (h1 : validSlot st.titlePlacement) (h2 : validSlot st.typePlacement)
    (h3 : validSlot st.contextPlacement) :
    (noContent base crit = true →
      renderDamageRoll cfg st dt base crit ctx v = .ok Option.none) ∧
    (base = Option.none → crit = Option.none →
      renderDamageRoll cfg st dt base crit ctx v = .error ()) ∧
    (noContent base crit = false → (base.isSome || crit.isSome) = true →
      formulaOf (renderDamageRoll cfg st dt base crit ctx v) = formulaFallback base crit ∧
      (formulaFallback base crit).isSome = true) := by
  refine ⟨?_, ?_, ?_⟩
  · intro hb
    simp [renderDamageRoll, hb]
  · intro hb hc
    subst hb
    subst hc
    exact (renderDamage_formula_eq cfg st dt Option.none Option.none ctx v
      h1 h2 h3 rfl).2.mpr rfl
  · intro hnc hpres
    refine ⟨(renderDamage_formula_eq cfg st dt base crit ctx v h1 h2 h3 hnc).1, ?_⟩
    cases base with
    | some b => rfl
    | none =>
      cases crit with
      | some c => rfl
      | none => simp at hpres

/-- C8 witness: with a present base roll the handler returns an output
whose formula is the fallback value. -/
theorem C8_output_presence_witness :
    (validSlot stDistinct.titlePlacement ∧ validSlot stDistinct.typePlacement ∧
     validSlot stDistinct.contextPlacement) ∧
    formulaOf (renderDamageRoll cfgStd stDistinct "fire" (some baseRollStd)
      Option.none Option.none false) = formulaFallback (some baseRollStd) Option.none :=
  ⟨⟨by decide, by decide, by decide⟩,
    ((C8_output_presence cfgStd stDistinct "fire" (some baseRollStd) Option.none
      Option.none false (by decide) (by decide) (by decide)).2.2 (by decide) (by decide)).1⟩

/-- C9 counterexample: `roll9` has the lucky option and a last primary
result of face value 1, yet the processor succeeds (the last result is
consumed as the companion of the preceding natural 1), so a face-1 last
result does not always fail. -/
theorem C9_counterexample :
    roll9.halflingLucky = true ∧
    roll9.dice = [⟨2, 20, [⟨1, true, false, true⟩, ⟨1, true, false, false⟩]⟩] ∧
    finalResultsOf (renderMultiRoll false roll9) =
      some [⟨1, false, false, true⟩, ⟨1, true, false, false⟩] := by decide

/-- C9 (amended): with the lucky option, the processor fails with the
out-of-range condition when the last primary result has face value 1
and begins a new logical entry (the preceding results form complete
entries), rather than silently truncating; a face-1 last result
consumed as a companion does not fail. -/
theorem C9_fails_when_last_result_triggers (icons : Bool) (roll : Roll) (d20 : Die)
    (rs : List DieResult) (r0 : DieResult) (gs : List (List DieResult))
    (hf : roll.dice.find? (fun d => d.faces == 20) = some d20)
    (hlucky : roll.halflingLucky = true)
    (hres : d20.results = rs ++ [r0])
    (hpre : walk true rs = .ok gs)
    (hone : r0.result = 1) :
    renderMultiRoll icons roll = .error () := by
  have hsnoc := walk_snoc r0 rs gs hpre
  rw [hone] at hsnoc
  simp only [beq_self_eq_true, if_true] at hsnoc
  have hwalk : walk roll.halflingLucky d20.results = .error () := by
    rw [hlucky, hres, hsnoc]
  simp [renderMultiRoll, hf, hwalk]

/-- C9 witness: a lucky roll whose only primary result is a natural 1
fails outright. -/
theorem C9_fails_when_last_result_triggers_witness :
    renderMultiRoll false roll9w = .error () :=
  C9_fails_when_last_result_triggers false roll9w
    ⟨1, 20, [⟨1, true, false, false⟩]⟩ [] ⟨1, true, false, false⟩ []
    (by decide) rfl (by decide) rfl rfl

/-- C10: every entry produced under any option setting consumes exactly
one or exactly two die results, and an entry consumes two only when the
lucky option is on and its first (triggering) result rolled a 1 — so a
companion, even one with face value 1, never triggers a further reroll
and chained rerolls are impossible. -/
theorem C10_entries_consume_at_most_two (icons : Bool) (roll : Roll) (out : MultiRollOut)
    (e : MultiRollEntry) (h : renderMultiRoll icons roll = .ok out)
    (he : e ∈ out.entries) :
    ((entryResults e).length = 1 ∨ (entryResults e).length = 2) ∧
    ((entryResults e).length = 2 → roll.halflingLucky = true ∧
      ((entryResults e).headD dummyResult).result = 1) := by
  obtain ⟨d20, groups, hf, hw, hent, hbt, hfr, hform⟩ := renderMultiRoll_ok h
  rw [hent] at he
  obtain ⟨g, hg, rfl⟩ := List.mem_map.mp he
  rw [entryResults_mkEntry]
  exact walk_group_sizes roll.halflingLucky d20.results groups hw g hg

/-- C10 witness: in `roll10` a face-1 companion is consumed by the
preceding natural 1 and the entry still has exactly two results. -/
theorem C10_entries_consume_at_most_two_witness :
    renderMultiRoll false roll10 = .ok out10val ∧ e10val ∈ out10val.entries ∧
    ((entryResults e10val).length = 1 ∨ (entryResults e10val).length = 2) :=
  ⟨by decide, by decide,
    (C10_entries_consume_at_most_two false roll10 out10val e10val
      (by decide) (by decide)).1⟩

end RSR
